import Mathlib

/-!
Shallow embedding of the Credit_Risk_Corporate_CEMAC core pipeline
(financial_processor.py, financial_analyzer.py, scoring_cobac.py,
regulations_cobac.py).

Modelling conventions:
- Python floats and pandas amounts are embedded as exact rationals.
- Python dicts keyed by year become association lists with `List.lookup`.
- The formatted ratio strings (for example a string rendered with one
  decimal place and a percent sign, then parsed back with float)
  are embedded by the rational value they parse to; rounding to n
  decimal places models the format step.  A string value that float()
  rejects is embedded as `PyVal.strRaw`.
- A try/except block whose body can only fail at an explicit lookup or
  parse step becomes a match on the corresponding Option values, with
  the except branch as the fallback arm.
- Case lowering is modelled for the ASCII range, which covers every
  keyword the source matches on.
-/

set_option maxRecDepth 10000

namespace CreditRiskCemac

/-- Check that a character list begins with the pattern list. -/
def startsList : List Char → List Char → Bool
  | [], _ => true
  | _ :: _, [] => false
  | p :: ps, c :: cs => p == c && startsList ps cs

/-- Check that a character list ends with the pattern list. -/
def endsList (pat l : List Char) : Bool := startsList pat.reverse l.reverse

/-- Check that a character list contains the pattern list as a contiguous run. -/
def containsList (pat : List Char) : List Char → Bool
  | [] => startsList pat []
  | c :: cs => startsList pat (c :: cs) || containsList pat cs

/-- ASCII lowering of one character, modelling str.lower for the ASCII range. -/
def lcChar (c : Char) : Char :=
  if 65 ≤ c.toNat ∧ c.toNat ≤ 90 then Char.ofNat (c.toNat + 32) else c

/-- String begins with the given pattern, modelling str.startswith. -/
def strStarts (s p : String) : Bool := startsList p.data s.data

/-- String ends with the given pattern, modelling str.endswith. -/
def strEnds (s p : String) : Bool := endsList p.data s.data

/-- Case-insensitive substring test, modelling str.contains(case=False)
and the in operator on a lowered string; the pattern is lowercase. -/
def lowerContains (s pat : String) : Bool :=
  containsList pat.data (s.data.map lcChar)

/-- One normalized ledger row, as produced by
FinancialDataProcessor reshape of the financial data. -/
structure Entry where
  account_code : String
  account_label : String
  year : Int
  amount : ℚ
  source : String
  nature : String
deriving DecidableEq

/-- FinancialDataProcessor determine nature: maps an account code and a
statement source to the semantic nature string.  Total, never fails. -/
def determineNature (account_code source : String) : String :=
  if source = "CPC" then
    if strStarts account_code "7" || strStarts account_code "706"
        || strStarts account_code "708" then "produit" else "charge"
  else if source = "BILAN" then
    if strStarts account_code "2" || strStarts account_code "3"
        || strStarts account_code "4" || strStarts account_code "5"
      then "actif" else "passif"
  else if source = "FLUX_TRESORERIE" then
    if strEnds account_code "1" then
      if lowerContains account_code "encaissement" then "encaissement"
      else if lowerContains account_code "investissement" then "investissement"
      else if lowerContains account_code "financement" then "financement"
      else "decaissement_exploitation"
    else "autre"
  else "autre"

/-- Rows of the ledger for one year. -/
def yearData (df : List Entry) (y : Int) : List Entry :=
  df.filter (fun e => e.year == y)

/-- Income statement rows for one year. -/
def cpcData (df : List Entry) (y : Int) : List Entry :=
  (yearData df y).filter (fun e => e.source == "CPC")

/-- Balance sheet rows for one year. -/
def bilanData (df : List Entry) (y : Int) : List Entry :=
  (yearData df y).filter (fun e => e.source == "BILAN")

/-- Sum of the amount column of a selection of rows. -/
def sumAmounts (l : List Entry) : ℚ := (l.map Entry.amount).sum

/-- Sum of product rows of the income statement for the year. -/
def ventesOf (df : List Entry) (y : Int) : ℚ :=
  sumAmounts ((cpcData df y).filter (fun e => e.nature == "produit"))

/-- Sum of charge rows of the income statement for the year. -/
def chargesOf (df : List Entry) (y : Int) : ℚ :=
  sumAmounts ((cpcData df y).filter (fun e => e.nature == "charge"))

/-- Rows counted as merchandise purchases: account code 601 or a label
containing achat, case-insensitively, over all income statement rows. -/
def achatsBucket (df : List Entry) (y : Int) : List Entry :=
  (cpcData df y).filter
    (fun e => e.account_code == "601" || lowerContains e.account_label "achat")

/-- Sum of rows whose label contains production. -/
def productionOf (df : List Entry) (y : Int) : ℚ :=
  sumAmounts ((cpcData df y).filter (fun e => lowerContains e.account_label "production"))

/-- Sum of rows whose label contains consommation. -/
def consommationsOf (df : List Entry) (y : Int) : ℚ :=
  sumAmounts ((cpcData df y).filter (fun e => lowerContains e.account_label "consommation"))

/-- Sum of payroll rows, account codes 641 and 645. -/
def chargesPersonnelOf (df : List Entry) (y : Int) : ℚ :=
  sumAmounts ((cpcData df y).filter
    (fun e => e.account_code == "641" || e.account_code == "645"))

/-- One year of intermediate management balances, as built by
FinancialAnalyzer calculate soldes intermediaires. -/
structure SIGResult where
  chiffre_affaires : ℚ
  marge_commerciale : ℚ
  valeur_ajoutee : ℚ
  ebe : ℚ
  charges_personnel : ℚ
  resultat_net : ℚ
deriving DecidableEq

/-- FinancialAnalyzer calculate soldes intermediaires, for one year. -/
def sigForYear (df : List Entry) (y : Int) : SIGResult :=
  let ventes := ventesOf df y
  let achats_marchandises := sumAmounts (achatsBucket df y)
  let marge_commerciale := ventes - |achats_marchandises|
  let valeur_ajoutee := marge_commerciale + productionOf df y - |consommationsOf df y|
  let charges_personnel := chargesPersonnelOf df y
  let ebe := valeur_ajoutee - |charges_personnel|
  let resultat_net := ventes - |chargesOf df y|
  ⟨ventes, marge_commerciale, valeur_ajoutee, ebe, |charges_personnel|, resultat_net⟩

/-- Rounding to one decimal place, modelling the format with one decimal
used on the percent ratios and on the global score. -/
def fmt1 (x : ℚ) : ℚ := ((⌊10 * x + 1 / 2⌋ : ℤ) : ℚ) / 10

/-- Rounding to two decimal places, modelling the format with two decimals
used on the plain ratios. -/
def fmt2 (x : ℚ) : ℚ := ((⌊100 * x + 1 / 2⌋ : ℤ) : ℚ) / 100

/-- Value stored in a ratios dictionary: a string that parses as a number,
a string that float() rejects, or a plain number. -/
inductive PyVal where
  | strNum (q : ℚ)
  | strRaw
  | num (q : ℚ)
deriving DecidableEq

/-- Result of applying float() with the replace of percent and comma to a
dictionary value: only a parseable string yields a number, anything else
raises, embedded as none.  A plain number raises at the replace call. -/
def parseStr : PyVal → Option ℚ
  | .strNum q => some q
  | _ => none

/-- Sum of asset rows of the balance sheet for the year. -/
def actifTotalOf (df : List Entry) (y : Int) : ℚ :=
  sumAmounts ((bilanData df y).filter (fun e => e.nature == "actif"))

/-- Sum of liability rows of the balance sheet for the year. -/
def passifTotalOf (df : List Entry) (y : Int) : ℚ :=
  sumAmounts ((bilanData df y).filter (fun e => e.nature == "passif"))

/-- Equity rows, codes 101, 106, 109, with no nature filter, exactly as in
calculate financial ratios. -/
def capitauxPropresOf (df : List Entry) (y : Int) : ℚ :=
  sumAmounts ((bilanData df y).filter
    (fun e => e.account_code == "101" || e.account_code == "106" || e.account_code == "109"))

/-- FinancialAnalyzer calculate financial ratios, for one year.  The
output is the dictionary actually built by the source, key for key; note
the first key is rentabilite underscore net, with no trailing te. -/
def ratiosForYear (df : List Entry) (y : Int) : List (String × PyVal) :=
  let ventes := ventesOf df y
  let resultat_net := ventes - chargesOf df y
  let actif_total := actifTotalOf df y
  let passif_total := passifTotalOf df y
  let capitaux_propres := capitauxPropresOf df y
  let rentabilite := if ventes > 0 then resultat_net / ventes * 100 else 0
  let endettement := if capitaux_propres > 0 then passif_total / capitaux_propres else 0
  let liquidite := if passif_total > 0 then actif_total / passif_total else 0
  let autonomie := if actif_total > 0 then capitaux_propres / actif_total * 100 else 0
  [("rentabilite_net", PyVal.strNum (fmt1 rentabilite)),
   ("ratio_endettement", PyVal.strNum (fmt2 endettement)),
   ("ratio_liquidite", PyVal.strNum (fmt2 liquidite)),
   ("ratio_autonomie", PyVal.strNum (fmt1 autonomie)),
   ("resultat_net", PyVal.num resultat_net)]

/-- One year of working capital indicators, as built by FinancialAnalyzer
calculate working capital indicators. -/
structure WCResult where
  caf : ℚ
  bfr : ℚ
  fr : ℚ
  tn : ℚ
  tn_alternative : ℚ
  actif_circulant : ℚ
  passif_circulant : ℚ
  capitaux_permanents : ℚ
  actif_immobilise : ℚ
deriving DecidableEq

/-- FinancialAnalyzer calculate working capital indicators, for one year. -/
def wcForYear (df : List Entry) (y : Int) : WCResult :=
  let bilan := bilanData df y
  let resultat_net := ventesOf df y - chargesOf df y
  let dotations := sumAmounts ((cpcData df y).filter
    (fun e => e.account_code == "681" || lowerContains e.account_label "amortissement"))
  let caf := resultat_net + |dotations|
  let stocks := sumAmounts (bilan.filter
    (fun e => strStarts e.account_code "3" && e.nature == "actif"))
  let clients := sumAmounts (bilan.filter
    (fun e => e.account_code == "411" && e.nature == "actif"))
  let actif_circulant := stocks + clients
  let fournisseurs := sumAmounts (bilan.filter
    (fun e => e.account_code == "401" && e.nature == "passif"))
  let dettes_fiscales := sumAmounts (bilan.filter
    (fun e => e.account_code == "441" && e.nature == "passif"))
  let dettes_sociales := sumAmounts (bilan.filter
    (fun e => e.account_code == "431" && e.nature == "passif"))
  let passif_circulant := fournisseurs + dettes_fiscales + dettes_sociales
  let bfr := actif_circulant - passif_circulant
  let capitaux_propres := sumAmounts (bilan.filter
    (fun e => (e.account_code == "101" || e.account_code == "106" || e.account_code == "109")
      && e.nature == "passif"))
  let dettes_long_terme := sumAmounts (bilan.filter
    (fun e => !(e.account_code == "101" || e.account_code == "106" || e.account_code == "109"
        || e.account_code == "401" || e.account_code == "421" || e.account_code == "431"
        || e.account_code == "441")
      && e.nature == "passif"))
  let capitaux_permanents := capitaux_propres + dettes_long_terme
  let actif_immobilise := sumAmounts (bilan.filter
    (fun e => strStarts e.account_code "2" && e.nature == "actif"))
  let fr := capitaux_permanents - actif_immobilise
  let tn := fr - bfr
  let tresorerie_active := sumAmounts (bilan.filter
    (fun e => (e.account_code == "511" || e.account_code == "512") && e.nature == "actif"))
  let tresorerie_passive := sumAmounts (bilan.filter
    (fun e => strStarts e.account_code "16" && e.nature == "passif"))
  ⟨caf, bfr, fr, tn, tresorerie_active - tresorerie_passive,
   actif_circulant, passif_circulant, capitaux_permanents, actif_immobilise⟩

/-- Distinct values in first-seen order, modelling the pandas unique call
on the year column. -/
def uniqAux (seen : List Int) : List Int → List Int
  | [] => []
  | x :: xs => if x ∈ seen then uniqAux seen xs else x :: uniqAux (x :: seen) xs

/-- Distinct years of the ledger. -/
def uniqueYears (df : List Entry) : List Int := uniqAux [] (df.map Entry.year)

/-- dict keyed by year holding the SIG of each year of the ledger. -/
def calculateSoldesIntermediaires (df : List Entry) : List (Int × SIGResult) :=
  (uniqueYears df).map (fun y => (y, sigForYear df y))

/-- dict keyed by year holding the ratios dictionary of each year. -/
def calculateFinancialRatios (df : List Entry) : List (Int × List (String × PyVal)) :=
  (uniqueYears df).map (fun y => (y, ratiosForYear df y))

/-- dict keyed by year holding the working capital record of each year. -/
def calculateWorkingCapitalIndicators (df : List Entry) : List (Int × WCResult) :=
  (uniqueYears df).map (fun y => (y, wcForYear df y))

/-- Python dict.get with a string default that parses to dflt, followed by
the float parse: a missing key falls back to the default string, a present
but unparsable value fails the parse. -/
def getStr (d : List (String × PyVal)) (key : String) (dflt : ℚ) : Option ℚ :=
  match d.lookup key with
  | some v => parseStr v
  | none => some dflt

/-- Profitability sub-score, 0 to 25 points; the except branch of the
source returns 0. -/
def scoreRentabilite (ratios : List (Int × List (String × PyVal))) (annee : Int) : ℚ :=
  match ratios.lookup annee with
  | none => 0
  | some d =>
    match getStr d "rentabilite_nette" 0 with
    | none => 0
    | some rentabilite =>
      if rentabilite ≥ 15 then 25
      else if rentabilite ≥ 10 then 20
      else if rentabilite ≥ 7 then 16
      else if rentabilite ≥ 5 then 12
      else if rentabilite ≥ 3 then 8
      else if rentabilite ≥ 0 then 4
      else 0

/-- Financial structure sub-score, 0 to 25 points; the except branch of
the source returns 0. -/
def scoreStructure (ratios : List (Int × List (String × PyVal))) (annee : Int) : ℚ :=
  match ratios.lookup annee with
  | none => 0
  | some d =>
    match getStr d "ratio_endettement" 0, getStr d "ratio_autonomie" 0 with
    | some endettement, some autonomie =>
      (if endettement ≤ 0.5 then 15
       else if endettement ≤ 1.0 then 12
       else if endettement ≤ 1.5 then 9
       else if endettement ≤ 2.0 then 6
       else 3) +
      (if autonomie ≥ 50 then 10
       else if autonomie ≥ 40 then 8
       else if autonomie ≥ 30 then 6
       else if autonomie ≥ 20 then 4
       else 2)
    | _, _ => 0

/-- Liquidity sub-score, 0 to 20 points; the except branch of the source
returns 0. -/
def scoreLiquidite (ratios : List (Int × List (String × PyVal))) (annee : Int) : ℚ :=
  match ratios.lookup annee with
  | none => 0
  | some d =>
    match getStr d "ratio_liquidite" 0 with
    | none => 0
    | some liquidite =>
      if liquidite ≥ 2.0 then 20
      else if liquidite ≥ 1.5 then 16
      else if liquidite ≥ 1.2 then 12
      else if liquidite ≥ 1.0 then 8
      else if liquidite ≥ 0.8 then 4
      else 0

/-- Treasury sub-score, 0 to 15 points. -/
def scoreTresorerie (wc : List (Int × WCResult)) (annee : Int) : ℚ :=
  match wc.lookup annee with
  | none => 0
  | some w =>
    if w.tn > 0 ∧ w.caf > 0 ∧ w.caf > |w.bfr| then 15
    else if w.tn > 0 ∧ w.caf > 0 then 12
    else if w.tn > 0 ∨ w.caf > 0 then 8
    else if w.tn ≥ -w.caf then 4
    else 0

/-- Keys of the SIG dict in ascending order; models the sorted call. -/
def sortedAnnees (sig : List (Int × SIGResult)) : List Int :=
  List.insertionSort (fun a b => a ≤ b) (sig.map Prod.fst)

/-- Last element of the sorted year list. -/
def lastAnnee (sig : List (Int × SIGResult)) : Int :=
  (sortedAnnees sig).getD ((sortedAnnees sig).length - 1) 0

/-- Second to last element of the sorted year list. -/
def prevAnnee (sig : List (Int × SIGResult)) : Int :=
  (sortedAnnees sig).getD ((sortedAnnees sig).length - 2) 0

/-- Growth sub-score, 0 to 15 points: neutral 7 when fewer than two years
of history, tiered comparison of revenue growth and margin delta
otherwise; every lookup or parse failure inside the body lands in the
except branch of the source, which returns 5. -/
def scoreCroissance (sig : List (Int × SIGResult))
    (ratios : List (Int × List (String × PyVal))) : ℚ :=
  if sig.length < 2 then 7
  else
    match sig.lookup (lastAnnee sig), sig.lookup (prevAnnee sig) with
    | some sigA, some sigP =>
      (match ratios.lookup (lastAnnee sig), ratios.lookup (prevAnnee sig) with
       | some dA, some dP =>
         (match getStr dA "rentabilite_nette" 0, getStr dP "rentabilite_nette" 0 with
          | some renta_actuelle, some renta_precedente =>
            let ca_actuel := sigA.chiffre_affaires
            let ca_precedent := sigP.chiffre_affaires
            let croissance_ca :=
              if ca_precedent > 0 then (ca_actuel - ca_precedent) / ca_precedent * 100 else 0
            let croissance_renta := renta_actuelle - renta_precedente
            if croissance_ca > 10 ∧ croissance_renta > 2 then 15
            else if croissance_ca > 5 ∧ croissance_renta > 0 then 12
            else if croissance_ca > 0 then 9
            else if croissance_ca ≥ -5 then 6
            else 3
          | _, _ => 5)
       | _, _ => 5)
    | _, _ => 5

/-- Conformity verdict per criterion plus the global field. -/
structure ConformiteResult where
  rentabilite : Bool
  endettement : Bool
  liquidite : Bool
  autonomie : Bool
  globalOk : Bool
deriving DecidableEq

/-- Alert thresholds of the regulatory configuration. -/
structure SeuilsAlertes where
  rentabilite_min : ℚ
  endettement_max : ℚ
  liquidite_min : ℚ
  autonomie_min : ℚ

/-- Values of the seuils alertes block of REGLEMENTATION COBAC. -/
def seuilsAlertes : SeuilsAlertes := ⟨3, 2, 1, 20⟩

/-- Conformity record returned by the except branch. -/
def defaultConformite : ConformiteResult := ⟨false, false, false, false, false⟩

/-- ScoringSystemCOBAC verifier conformite cobac: four threshold checks
plus the global field, which the source sets to all of the four values. -/
def verifierConformite (ratios : List (Int × List (String × PyVal)))
    (annee : Int) : ConformiteResult :=
  match ratios.lookup annee with
  | none => defaultConformite
  | some d =>
    match getStr d "rentabilite_nette" 0, getStr d "ratio_endettement" 0,
          getStr d "ratio_liquidite" 0, getStr d "ratio_autonomie" 0 with
    | some rentabilite, some endettement, some liquidite, some autonomie =>
      let cr := decide (rentabilite ≥ seuilsAlertes.rentabilite_min)
      let ce := decide (endettement ≤ seuilsAlertes.endettement_max)
      let cl := decide (liquidite ≥ seuilsAlertes.liquidite_min)
      let ca := decide (autonomie ≥ seuilsAlertes.autonomie_min)
      ⟨cr, ce, cl, ca, cr && ce && cl && ca⟩
    | _, _, _, _ => defaultConformite

/-- The five detailed sub-scores of a scoring run. -/
structure ScoresDetail where
  rentabilite : ℚ
  structure_financiere : ℚ
  liquidite : ℚ
  tresorerie : ℚ
  croissance : ℚ
deriving DecidableEq

/-- Full scoring record returned by calculer score global. -/
structure ScoreResult where
  score_total : ℚ
  categorie : String
  libelle_categorie : String
  couleur_categorie : String
  scores_detailles : ScoresDetail
  conformite_cobac : ConformiteResult
deriving DecidableEq

/-- Category from the score: first entry of the categories table whose
minimum the score reaches, in the order A, B, C, D, E; E as fallback. -/
def determinerCategorie (score : ℚ) : String :=
  if score ≥ 60 then "A"
  else if score ≥ 50 then "B"
  else if score ≥ 40 then "C"
  else if score ≥ 30 then "D"
  else if score ≥ 0 then "E"
  else "E"

/-- Label of a category in the categories table. -/
def libelleCategorie (cat : String) : String :=
  if cat = "A" then "Excellent - Risque faible"
  else if cat = "B" then "Bon - Risque modere"
  else if cat = "C" then "Moyen - Risque acceptable"
  else if cat = "D" then "Mediocre - Risque eleve"
  else "Mauvais - Risque tres eleve"

/-- Colour of a category in the categories table. -/
def couleurCategorie (cat : String) : String :=
  if cat = "A" then "green"
  else if cat = "B" then "blue"
  else if cat = "C" then "orange"
  else if cat = "D" then "red"
  else "darkred"

/-- Default scoring record returned when an input dict is empty. -/
def defaultScore : ScoreResult :=
  ⟨0, "E", "Donnees insuffisantes", "gray", ⟨0, 0, 0, 0, 0⟩, defaultConformite⟩

/-- Maximum of the keys of a dict, modelling max over the year keys. -/
def maxKey {α : Type} : List (Int × α) → Int
  | [] => 0
  | p :: rest => rest.foldl (fun m q => max m q.1) p.1

/-- The five sub-scores of a run, each computed on the latest year. -/
def scoresOf (sig : List (Int × SIGResult)) (ratios : List (Int × List (String × PyVal)))
    (wc : List (Int × WCResult)) : ScoresDetail :=
  ⟨scoreRentabilite ratios (maxKey sig),
   scoreStructure ratios (maxKey sig),
   scoreLiquidite ratios (maxKey sig),
   scoreTresorerie wc (maxKey sig),
   scoreCroissance sig ratios⟩

/-- Weighted sum of the five sub-scores with the configured weights. -/
def weightedSum (s : ScoresDetail) : ℚ :=
  s.rentabilite * 0.25 + s.structure_financiere * 0.25 + s.liquidite * 0.20
    + s.tresorerie * 0.15 + s.croissance * 0.15

/-- Clamp of the weighted sum to the interval 0 to 100. -/
def clampScore (x : ℚ) : ℚ := max 0 (min 100 x)

/-- ScoringSystemCOBAC calculer score global: default record on an empty
input dict, otherwise the weighted, clamped composite rounded to one
decimal, the category from the unrounded composite, and the conformity
check on the latest year. -/
def calculerScoreGlobal (sig : List (Int × SIGResult))
    (ratios : List (Int × List (String × PyVal)))
    (wc : List (Int × WCResult)) : ScoreResult :=
  if sig.isEmpty || ratios.isEmpty || wc.isEmpty then defaultScore
  else
    let scores := scoresOf sig ratios wc
    let score_total := clampScore (weightedSum scores)
    ⟨fmt1 score_total,
     determinerCategorie score_total,
     libelleCategorie (determinerCategorie score_total),
     couleurCategorie (determinerCategorie score_total),
     scores,
     verifierConformite ratios (maxKey sig)⟩

/-- Provision rates of the classification creances block of
REGLEMENTATION COBAC.  The descriptive keys carry no provision sub-key,
so looking them up fails exactly like a missing key. -/
def classificationCreances : List (String × ℚ) :=
  [("standard", 0), ("suivi_special", 0.2), ("douteux", 0.5), ("contentieux", 1)]

/-- Provisioning record returned by calculer provisionnement. -/
structure ProvisionResult where
  montant_pret : ℚ
  categorie : String
  taux_provision : ℚ
  provision_requise : ℚ
  montant_net : ℚ
deriving DecidableEq

/-- ScoringSystemCOBAC calculer provisionnement: rate lookup and the two
derived amounts; an unknown category lands in the except branch, which
returns the fallback record. -/
def calculerProvisionnement (montant_pret : ℚ) (categorie : String) : ProvisionResult :=
  match classificationCreances.lookup categorie with
  | some taux => ⟨montant_pret, categorie, taux, montant_pret * taux,
      montant_pret - montant_pret * taux⟩
  | none => ⟨montant_pret, "E", 1, montant_pret, 0⟩

/-! Concrete sample inputs used by the per-claim evaluations below. -/

/-- Ledger of the spec scenario: one product account 701 of 600000 and one
charge account 601 of 400000, both income statement rows of year 2023,
with the nature assigned by the classifier. -/
def dfProduitCharge : List Entry :=
  [⟨"701", "Ventes de marchandises", 2023, 600000, "CPC", determineNature "701" "CPC"⟩,
   ⟨"601", "Achats de marchandises", 2023, 400000, "CPC", determineNature "601" "CPC"⟩]

/-- Ledger with a single charge row and no product row, so revenue, total
assets and equity of 2023 are all zero. -/
def dfZeroDenom : List Entry :=
  [⟨"601", "Achats de marchandises", 2023, 400000, "CPC", determineNature "601" "CPC"⟩]

/-- Single product-prefixed income statement row whose label contains the
keyword achat. -/
def dfAchatProduit : List Entry :=
  [⟨"701", "Achat-revente de marchandises", 2023, 100000, "CPC", determineNature "701" "CPC"⟩]

/-- Two years of SIG history with a flat revenue of 100. -/
def sigTwoYears : List (Int × SIGResult) :=
  [(2022, ⟨100, 0, 0, 0, 0, 0⟩), (2023, ⟨100, 0, 0, 0, 0, 0⟩)]

/-- Ratios dictionary of year 2023 with a negative margin, a debt ratio
above 2, a current ratio below 0.8 and an autonomy below 20. -/
def ratiosNegDict : List (String × PyVal) :=
  [("rentabilite_nette", PyVal.strNum (-5)), ("ratio_endettement", PyVal.strNum 3),
   ("ratio_liquidite", PyVal.strNum (1/2)), ("ratio_autonomie", PyVal.strNum 10)]

/-- Two years of ratios with a flat negative margin. -/
def ratiosNeg : List (Int × List (String × PyVal)) :=
  [(2022, [("rentabilite_nette", PyVal.strNum (-5))]), (2023, ratiosNegDict)]

/-- One year of working capital with negative cash position and negative
self-financing capacity. -/
def wcNeg : List (Int × WCResult) :=
  [(2023, ⟨-5, 0, 0, -10, 0, 0, 0, 0, 0⟩)]

/-- Two years of ratios where the margin string of the latest year does
not parse. -/
def ratiosRaw : List (Int × List (String × PyVal)) :=
  [(2022, [("rentabilite_nette", PyVal.strNum 5)]), (2023, [("rentabilite_nette", PyVal.strRaw)])]

/-- One year of SIG history only. -/
def sigOneYear : List (Int × SIGResult) := [(2023, ⟨100, 0, 0, 0, 0, 0⟩)]

/-! Helper lemmas shared by the per-claim theorems. -/

/-- Rounding to one decimal never exceeds 21 when the input does not. -/
theorem fmt1_le_21 (x : ℚ) (h : x ≤ 21) : fmt1 x ≤ 21 := by
  have h1 : ((⌊10 * x + 1 / 2⌋ : ℤ) : ℚ) ≤ 10 * x + 1 / 2 := Int.floor_le _
  have h2 : ((⌊10 * x + 1 / 2⌋ : ℤ) : ℚ) < 211 := by linarith
  have h3 : (⌊10 * x + 1 / 2⌋ : ℤ) < 211 := by exact_mod_cast h2
  have h4 : (⌊10 * x + 1 / 2⌋ : ℤ) ≤ 210 := by omega
  have h5 : ((⌊10 * x + 1 / 2⌋ : ℤ) : ℚ) ≤ 210 := by exact_mod_cast h4
  unfold fmt1
  linarith

/-- Rounding to one decimal preserves nonnegativity. -/
theorem fmt1_nonneg (x : ℚ) (h : 0 ≤ x) : 0 ≤ fmt1 x := by
  have h1 : (0 : ℤ) ≤ ⌊10 * x + 1 / 2⌋ := by
    rw [Int.le_floor]
    push_cast
    linarith
  have h2 : (0 : ℚ) ≤ ((⌊10 * x + 1 / 2⌋ : ℤ) : ℚ) := by exact_mod_cast h1
  unfold fmt1
  linarith

/-- Rounding to one decimal moves a value by at most one twentieth. -/
theorem abs_fmt1_sub_le (x : ℚ) : |fmt1 x - x| ≤ 1 / 20 := by
  have h1 : ((⌊10 * x + 1 / 2⌋ : ℤ) : ℚ) ≤ 10 * x + 1 / 2 := Int.floor_le _
  have h2 : 10 * x + 1 / 2 - 1 < ((⌊10 * x + 1 / 2⌋ : ℤ) : ℚ) := Int.sub_one_lt_floor _
  unfold fmt1
  rw [abs_le]
  constructor <;> linarith

/-- Profitability sub-score stays between 0 and 25. -/
theorem scoreRentabilite_bounds (ratios : List (Int × List (String × PyVal))) (annee : Int) :
    0 ≤ scoreRentabilite ratios annee ∧ scoreRentabilite ratios annee ≤ 25 := by
  unfold scoreRentabilite
  split
  · norm_num
  · split
    · norm_num
    · split_ifs <;> norm_num

/-- Structure sub-score stays between 0 and 25. -/
theorem scoreStructure_bounds (ratios : List (Int × List (String × PyVal))) (annee : Int) :
    0 ≤ scoreStructure ratios annee ∧ scoreStructure ratios annee ≤ 25 := by
  unfold scoreStructure
  split
  · norm_num
  · split
    · split_ifs <;> norm_num
    · norm_num

/-- Liquidity sub-score stays between 0 and 20. -/
theorem scoreLiquidite_bounds (ratios : List (Int × List (String × PyVal))) (annee : Int) :
    0 ≤ scoreLiquidite ratios annee ∧ scoreLiquidite ratios annee ≤ 20 := by
  unfold scoreLiquidite
  split
  · norm_num
  · split
    · norm_num
    · split_ifs <;> norm_num

/-- Treasury sub-score stays between 0 and 15. -/
theorem scoreTresorerie_bounds (wc : List (Int × WCResult)) (annee : Int) :
    0 ≤ scoreTresorerie wc annee ∧ scoreTresorerie wc annee ≤ 15 := by
  unfold scoreTresorerie
  split
  · norm_num
  · split_ifs <;> norm_num

/-- Growth sub-score stays between 0 and 15. -/
theorem scoreCroissance_bounds (sig : List (Int × SIGResult))
    (ratios : List (Int × List (String × PyVal))) :
    0 ≤ scoreCroissance sig ratios ∧ scoreCroissance sig ratios ≤ 15 := by
  unfold scoreCroissance
  split
  · norm_num
  · split
    · split
      · split
        · dsimp only
          split_ifs <;> norm_num
        · norm_num
      · norm_num
    · norm_num

/-- The weighted composite of any run stays between 0 and 21. -/
theorem weightedSum_bounds (sig : List (Int × SIGResult))
    (ratios : List (Int × List (String × PyVal))) (wc : List (Int × WCResult)) :
    0 ≤ weightedSum (scoresOf sig ratios wc) ∧ weightedSum (scoresOf sig ratios wc) ≤ 21 := by
  obtain ⟨r0, r1⟩ := scoreRentabilite_bounds ratios (maxKey sig)
  obtain ⟨s0, s1⟩ := scoreStructure_bounds ratios (maxKey sig)
  obtain ⟨l0, l1⟩ := scoreLiquidite_bounds ratios (maxKey sig)
  obtain ⟨t0, t1⟩ := scoreTresorerie_bounds wc (maxKey sig)
  obtain ⟨c0, c1⟩ := scoreCroissance_bounds sig ratios
  unfold weightedSum scoresOf
  constructor <;> dsimp only <;> nlinarith

/-- Clamping is the identity on the reachable range. -/
theorem clampScore_eq (x : ℚ) (h0 : 0 ≤ x) (h21 : x ≤ 21) : clampScore x = x := by
  unfold clampScore
  rw [min_eq_right (by linarith), max_eq_right h0]

/-- Every score strictly below 30 and at least 0 maps to category E. -/
theorem determinerCategorie_E (x : ℚ) (h0 : 0 ≤ x) (h30 : x < 30) :
    determinerCategorie x = "E" := by
  unfold determinerCategorie
  split_ifs <;> first | rfl | (exfalso; linarith)

/-- Evaluation of calculer score global on nonempty inputs. -/
theorem calculerScoreGlobal_nonempty (sig : List (Int × SIGResult))
    (ratios : List (Int × List (String × PyVal))) (wc : List (Int × WCResult))
    (h : (sig.isEmpty || ratios.isEmpty || wc.isEmpty) = false) :
    calculerScoreGlobal sig ratios wc =
      ⟨fmt1 (clampScore (weightedSum (scoresOf sig ratios wc))),
       determinerCategorie (clampScore (weightedSum (scoresOf sig ratios wc))),
       libelleCategorie (determinerCategorie (clampScore (weightedSum (scoresOf sig ratios wc)))),
       couleurCategorie (determinerCategorie (clampScore (weightedSum (scoresOf sig ratios wc)))),
       scoresOf sig ratios wc,
       verifierConformite ratios (maxKey sig)⟩ := by
  unfold calculerScoreGlobal
  rw [h]
  rfl

/-- Looking a key up in the graph of a function over a key list returns
the value of the function at that key. -/
theorem lookup_graph {α : Type} (f : Int → α) :
    ∀ (l : List Int) (y : Int) (r : α),
      List.lookup y (l.map (fun z => (z, f z))) = some r → r = f y := by
  intro l
  induction l with
  | nil => intro y r h; simp [List.lookup] at h
  | cons z zs ih =>
    intro y r h
    rw [List.map_cons, List.lookup] at h
    rcases hz : (y == z) with _ | _
    · rw [hz] at h
      exact ih y r h
    · rw [hz] at h
      have hyz : y = z := by
        have := hz
        simpa [beq_iff_eq] using this
      rw [hyz]
      simpa using h.symm

/-- The three product prefixes of the income statement collapse to the
single digit prefix 7. -/
theorem starts_any7 (code : String) :
    (strStarts code "7" || strStarts code "706" || strStarts code "708") = strStarts code "7" := by
  obtain ⟨l⟩ := code
  change (startsList ['7'] l || startsList ['7', '0', '6'] l
    || startsList ['7', '0', '8'] l) = startsList ['7'] l
  cases l with
  | nil => rfl
  | cons c cs =>
    simp only [startsList]
    cases h : ('7' == c) <;> simp [startsList]

/-! Per-claim theorems. -/

/-- C1: on the spec scenario (one product account 701 of 600000 and one
charge account 601 of 400000, year 2023) the pipeline computes a net
result of 200000 and a net margin formatted to 33.3 percent, but it
stores that margin under the key rentabilite underscore net, while the
scoring engine reads the key rentabilite underscore nette; the lookup
therefore falls back to the default string of zero percent and the
profitability sub-score is 4, not the top tier 25 asserted by the claim. -/
theorem c1_rentabilite_key_mismatch :
    determineNature "701" "CPC" = "produit" ∧
    determineNature "601" "CPC" = "charge" ∧
    (sigForYear dfProduitCharge 2023).resultat_net = 200000 ∧
    List.lookup "rentabilite_net" (ratiosForYear dfProduitCharge 2023)
      = some (PyVal.strNum (333 / 10)) ∧
    List.lookup "rentabilite_nette" (ratiosForYear dfProduitCharge 2023) = none ∧
    scoreRentabilite (calculateFinancialRatios dfProduitCharge) 2023 = 4 ∧
    (calculerScoreGlobal (calculateSoldesIntermediaires dfProduitCharge)
        (calculateFinancialRatios dfProduitCharge)
        (calculateWorkingCapitalIndicators dfProduitCharge)).scores_detailles.rentabilite ≠ 25 :=
  ⟨by decide, by decide,
   le_antisymm (by with_unfolding_all decide) (by with_unfolding_all decide),
   by with_unfolding_all decide, by with_unfolding_all decide,
   by with_unfolding_all decide, by with_unfolding_all decide⟩

/-- C2: on any triple of nonempty input dicts the composite score is at
most 21 and the category is E, because the weighted maxima of the five
sub-scores add up to 21, below every higher category threshold. -/
theorem c2_score_cap_and_category (sig : List (Int × SIGResult))
    (ratios : List (Int × List (String × PyVal))) (wc : List (Int × WCResult))
    (hs : sig ≠ []) (hr : ratios ≠ []) (hw : wc ≠ []) :
    (calculerScoreGlobal sig ratios wc).score_total ≤ 21 ∧
    (calculerScoreGlobal sig ratios wc).categorie = "E" := by
  have hcond : (sig.isEmpty || ratios.isEmpty || wc.isEmpty) = false := by
    rcases sig with _ | ⟨p, sigt⟩
    · exact absurd rfl hs
    · rcases ratios with _ | ⟨q, rt⟩
      · exact absurd rfl hr
      · rcases wc with _ | ⟨w, wt⟩
        · exact absurd rfl hw
        · rfl
  rw [calculerScoreGlobal_nonempty sig ratios wc hcond]
  obtain ⟨h0, h21⟩ := weightedSum_bounds sig ratios wc
  rw [clampScore_eq _ h0 h21]
  exact ⟨fmt1_le_21 _ h21, determinerCategorie_E _ h0 (by linarith)⟩

/-- C2 witness: concrete nonempty inputs reach the bound and category. -/
theorem c2_score_cap_and_category_witness :
    (calculerScoreGlobal sigTwoYears ratiosNeg wcNeg).score_total ≤ 21 ∧
    (calculerScoreGlobal sigTwoYears ratiosNeg wcNeg).categorie = "E" :=
  c2_score_cap_and_category sigTwoYears ratiosNeg wcNeg
    (by decide) (by decide) (by decide)

/-- C5: for every ledger and every year of its working capital dict, the
net cash position field equals structural working capital minus the
working capital requirement, by construction from the same inputs. -/
theorem c5_tn_by_construction (df : List Entry) (y : Int) (r : WCResult)
    (h : List.lookup y (calculateWorkingCapitalIndicators df) = some r) :
    r.tn = r.fr - r.bfr := by
  unfold calculateWorkingCapitalIndicators at h
  rw [lookup_graph (wcForYear df) (uniqueYears df) y r h]
  rfl

/-- C5 witness: the spec scenario ledger at year 2023. -/
theorem c5_tn_by_construction_witness :
    (wcForYear dfProduitCharge 2023).tn
      = (wcForYear dfProduitCharge 2023).fr - (wcForYear dfProduitCharge 2023).bfr :=
  c5_tn_by_construction dfProduitCharge 2023 (wcForYear dfProduitCharge 2023) rfl

/-- C7 counterexample: a reachable run whose sub-scores are 0, 5, 0, 0, 6
has weighted sum 2.15, which the one-decimal rounding turns into 2.2; the
returned total differs from the weighted sum by 0.05, far above the
claimed tolerance of one millionth. -/
theorem c7_tolerance_counterexample :
    (calculerScoreGlobal sigTwoYears ratiosNeg wcNeg).score_total = 11 / 5 ∧
    weightedSum (calculerScoreGlobal sigTwoYears ratiosNeg wcNeg).scores_detailles = 43 / 20 ∧
    ¬ (|(calculerScoreGlobal sigTwoYears ratiosNeg wcNeg).score_total
        - weightedSum (calculerScoreGlobal sigTwoYears ratiosNeg wcNeg).scores_detailles|
          ≤ 1 / 1000000) := by
  with_unfolding_all decide

/-- C7 amended: on every input the returned total lies in the interval
0 to 100 and differs from the weighted sum of the detailed sub-scores by
at most 0.05, the worst case of rounding to one decimal place. -/
theorem c7_total_in_range_and_near_weighted (sig : List (Int × SIGResult))
    (ratios : List (Int × List (String × PyVal))) (wc : List (Int × WCResult)) :
    0 ≤ (calculerScoreGlobal sig ratios wc).score_total ∧
    (calculerScoreGlobal sig ratios wc).score_total ≤ 100 ∧
    |(calculerScoreGlobal sig ratios wc).score_total
        - weightedSum (calculerScoreGlobal sig ratios wc).scores_detailles| ≤ 1 / 20 := by
  by_cases h : (sig.isEmpty || ratios.isEmpty || wc.isEmpty) = true
  · unfold calculerScoreGlobal
    rw [h]
    norm_num [defaultScore, weightedSum, defaultConformite]
  · have h' : (sig.isEmpty || ratios.isEmpty || wc.isEmpty) = false := by
      cases hh : (sig.isEmpty || ratios.isEmpty || wc.isEmpty)
      · rfl
      · exact absurd hh h
    rw [calculerScoreGlobal_nonempty sig ratios wc h']
    obtain ⟨h0, h21⟩ := weightedSum_bounds sig ratios wc
    dsimp only
    rw [clampScore_eq _ h0 h21]
    exact ⟨fmt1_nonneg _ h0, le_trans (fmt1_le_21 _ h21) (by norm_num), abs_fmt1_sub_le _⟩

/-- C3 counterexample: a year whose revenue, equity and total assets are
all zero still reports the three affected ratios as the numeric value
zero, not as a distinguished undefined marker. -/
theorem c3_zero_denominator_counterexample :
    ventesOf dfZeroDenom 2023 = 0 ∧
    capitauxPropresOf dfZeroDenom 2023 = 0 ∧
    actifTotalOf dfZeroDenom 2023 = 0 ∧
    List.lookup "rentabilite_net" (ratiosForYear dfZeroDenom 2023) = some (PyVal.strNum 0) ∧
    List.lookup "ratio_endettement" (ratiosForYear dfZeroDenom 2023) = some (PyVal.strNum 0) ∧
    List.lookup "ratio_autonomie" (ratiosForYear dfZeroDenom 2023) = some (PyVal.strNum 0) := by
  with_unfolding_all decide

/-- C3 amended: a ratio whose denominator is zero is reported as the
numeric value zero (the else branch of each guard), formatted like any
other value; no distinguished undefined marker exists in the result. -/
theorem c3_zero_denominator_reports_zero (df : List Entry) (y : Int) :
    (ventesOf df y = 0 →
      List.lookup "rentabilite_net" (ratiosForYear df y) = some (PyVal.strNum 0)) ∧
    (capitauxPropresOf df y = 0 →
      List.lookup "ratio_endettement" (ratiosForYear df y) = some (PyVal.strNum 0)) ∧
    (actifTotalOf df y = 0 →
      List.lookup "ratio_autonomie" (ratiosForYear df y) = some (PyVal.strNum 0)) := by
  refine ⟨fun h => ?_, fun h => ?_, fun h => ?_⟩
  · simp only [ratiosForYear]
    rw [h]
    norm_num [List.lookup, fmt1]
  · simp only [ratiosForYear]
    rw [h]
    norm_num [List.lookup, fmt2,
      (by decide : ("ratio_endettement" == "rentabilite_net") = false)]
  · simp only [ratiosForYear]
    rw [h]
    norm_num [List.lookup, fmt1,
      (by decide : ("ratio_autonomie" == "rentabilite_net") = false),
      (by decide : ("ratio_autonomie" == "ratio_endettement") = false),
      (by decide : ("ratio_autonomie" == "ratio_liquidite") = false)]

/-- C3 witness: the amended statement instantiated on the concrete ledger
whose three denominators vanish. -/
theorem c3_zero_denominator_reports_zero_witness :
    List.lookup "rentabilite_net" (ratiosForYear dfZeroDenom 2023) = some (PyVal.strNum 0) ∧
    List.lookup "ratio_endettement" (ratiosForYear dfZeroDenom 2023) = some (PyVal.strNum 0) ∧
    List.lookup "ratio_autonomie" (ratiosForYear dfZeroDenom 2023) = some (PyVal.strNum 0) :=
  ⟨(c3_zero_denominator_reports_zero dfZeroDenom 2023).1 (by with_unfolding_all decide),
   (c3_zero_denominator_reports_zero dfZeroDenom 2023).2.1 (by with_unfolding_all decide),
   (c3_zero_denominator_reports_zero dfZeroDenom 2023).2.2 (by with_unfolding_all decide)⟩

/-- C4 counterexample: the letter category A is not a key of the
provisioning table, yet the call returns a full provisioning record (the
except fallback: category E, rate 1, provision equal to the loan amount,
net amount zero) instead of failing. -/
theorem c4_unknown_category_counterexample :
    List.lookup "A" classificationCreances = none ∧
    (calculerProvisionnement 100000 "A").categorie = "E" ∧
    (calculerProvisionnement 100000 "A").taux_provision = 1 ∧
    (calculerProvisionnement 100000 "A").provision_requise = 100000 ∧
    (calculerProvisionnement 100000 "A").montant_net = 0 :=
  ⟨by decide, rfl, rfl, rfl, rfl⟩

/-- C4 amended: a category that is not a key of the provisioning table
does not raise; the call returns the fallback record with category E, a
provision rate of 1, the whole amount provisioned and a net of zero. -/
theorem c4_unknown_category_fallback (montant_pret : ℚ) (categorie : String)
    (h : List.lookup categorie classificationCreances = none) :
    calculerProvisionnement montant_pret categorie = ⟨montant_pret, "E", 1, montant_pret, 0⟩ := by
  unfold calculerProvisionnement
  rw [h]

/-- C4 witness: the fallback record at amount 100000 and category A. -/
theorem c4_unknown_category_fallback_witness :
    calculerProvisionnement 100000 "A" = ⟨100000, "E", 1, 100000, 0⟩ :=
  c4_unknown_category_fallback 100000 "A" (by decide)

/-- C6: the conformity check always returns a global field equal to the
conjunction of its four per-criterion booleans, and whenever the year is
present and the four values parse, the four booleans are exactly the
fixed inequalities margin at least 3 percent, debt at most 2, liquidity
at least 1 and autonomy at least 20 percent. -/
theorem c6_conformite_and_of_four (ratios : List (Int × List (String × PyVal))) (annee : Int) :
    ((verifierConformite ratios annee).globalOk
      = ((verifierConformite ratios annee).rentabilite
          && (verifierConformite ratios annee).endettement
          && (verifierConformite ratios annee).liquidite
          && (verifierConformite ratios annee).autonomie)) ∧
    (∀ (d : List (String × PyVal)) (r e l a : ℚ),
      List.lookup annee ratios = some d →
      getStr d "rentabilite_nette" 0 = some r →
      getStr d "ratio_endettement" 0 = some e →
      getStr d "ratio_liquidite" 0 = some l →
      getStr d "ratio_autonomie" 0 = some a →
      verifierConformite ratios annee =
        ⟨decide (r ≥ 3), decide (e ≤ 2), decide (l ≥ 1), decide (a ≥ 20),
         decide (r ≥ 3) && decide (e ≤ 2) && decide (l ≥ 1) && decide (a ≥ 20)⟩) := by
  constructor
  · unfold verifierConformite
    split
    · rfl
    · split <;> rfl
  · intro d r e l a h1 h2 h3 h4 h5
    simp only [verifierConformite, h1, h2, h3, h4, h5]
    rfl

/-- C6 witness: the conformity record of the concrete failing year, with
every hypothesis discharged on the literal dictionary. -/
theorem c6_conformite_and_of_four_witness :
    ((verifierConformite ratiosNeg 2023).globalOk
      = ((verifierConformite ratiosNeg 2023).rentabilite
          && (verifierConformite ratiosNeg 2023).endettement
          && (verifierConformite ratiosNeg 2023).liquidite
          && (verifierConformite ratiosNeg 2023).autonomie)) ∧
    verifierConformite ratiosNeg 2023 = ⟨false, false, false, false, false⟩ := by
  have h := c6_conformite_and_of_four ratiosNeg 2023
  refine ⟨h.1, ?_⟩
  rw [h.2 ratiosNegDict (-5) 3 (1/2) 10 rfl rfl rfl rfl rfl]
  with_unfolding_all decide

/-- C8 counterexample: with two years of history and an unparsable margin
string for the latest year, the growth sub-score is the except fallback
5, which is neither the claimed degradation value 0 nor the claimed
growth default 7. -/
theorem c8_growth_failure_counterexample :
    scoreCroissance sigTwoYears ratiosRaw = 5 ∧
    scoreCroissance sigTwoYears ratiosRaw ≠ 7 ∧
    scoreCroissance sigTwoYears ratiosRaw ≠ 0 := by
  with_unfolding_all decide

/-- C8 amended: with fewer than two years of SIG history the growth
sub-score is the neutral 7; a lookup or parse failure inside the growth
computation yields the except fallback 5; a lookup or parse failure in
another sub-score yields 0 for that sub-score; and on nonempty inputs the
scoring call still returns a record whose detailed sub-scores are exactly
the five independent computations, so one failure never aborts the call. -/
theorem c8_failure_isolation :
    (∀ (sig : List (Int × SIGResult)) (ratios : List (Int × List (String × PyVal))),
      sig.length < 2 → scoreCroissance sig ratios = 7) ∧
    (∀ (sig : List (Int × SIGResult)) (ratios : List (Int × List (String × PyVal))),
      ¬ sig.length < 2 → List.lookup (lastAnnee sig) ratios = none →
      scoreCroissance sig ratios = 5) ∧
    (∀ (sig : List (Int × SIGResult)) (ratios : List (Int × List (String × PyVal)))
        (d : List (String × PyVal)),
      ¬ sig.length < 2 → List.lookup (lastAnnee sig) ratios = some d →
      getStr d "rentabilite_nette" 0 = none → scoreCroissance sig ratios = 5) ∧
    (∀ (ratios : List (Int × List (String × PyVal))) (annee : Int),
      List.lookup annee ratios = none →
      scoreRentabilite ratios annee = 0 ∧ scoreStructure ratios annee = 0 ∧
        scoreLiquidite ratios annee = 0) ∧
    (∀ (wc : List (Int × WCResult)) (annee : Int),
      List.lookup annee wc = none → scoreTresorerie wc annee = 0) ∧
    (∀ (ratios : List (Int × List (String × PyVal))) (annee : Int)
        (d : List (String × PyVal)),
      List.lookup annee ratios = some d → getStr d "rentabilite_nette" 0 = none →
      scoreRentabilite ratios annee = 0) ∧
    (∀ (sig : List (Int × SIGResult)) (ratios : List (Int × List (String × PyVal)))
        (wc : List (Int × WCResult)),
      (sig.isEmpty || ratios.isEmpty || wc.isEmpty) = false →
      (calculerScoreGlobal sig ratios wc).scores_detailles = scoresOf sig ratios wc) := by
  refine ⟨?_, ?_, ?_, ?_, ?_, ?_, ?_⟩
  · intro sig ratios h
    unfold scoreCroissance
    rw [if_pos h]
  · intro sig ratios h hnone
    unfold scoreCroissance
    rw [if_neg h]
    rcases hA : List.lookup (lastAnnee sig) sig with _ | sigA <;>
      rcases hP : List.lookup (prevAnnee sig) sig with _ | sigP <;>
      simp only [hA, hP, hnone]
  · intro sig ratios d h hdA hparse
    unfold scoreCroissance
    rw [if_neg h]
    rcases hA : List.lookup (lastAnnee sig) sig with _ | sigA <;>
      rcases hP : List.lookup (prevAnnee sig) sig with _ | sigP <;>
      simp only [hA, hP, hdA]
    rcases hdP : List.lookup (prevAnnee sig) ratios with _ | dP <;>
      simp only [hdP, hparse]
  · intro ratios annee h
    refine ⟨?_, ?_, ?_⟩ <;> simp only [scoreRentabilite, scoreStructure, scoreLiquidite, h]
  · intro wc annee h
    simp only [scoreTresorerie, h]
  · intro ratios annee d h hparse
    simp only [scoreRentabilite, h, hparse]
  · intro sig ratios wc h
    rw [calculerScoreGlobal_nonempty sig ratios wc h]

/-- C8 witness: each regime of the amended statement at a concrete input:
one year of history gives 7, a two-year history with an unparsable latest
margin gives 5, the same parse failure gives 0 for the profitability
sub-score, and the full call still assembles the five sub-scores. -/
theorem c8_failure_isolation_witness :
    scoreCroissance sigOneYear ratiosRaw = 7 ∧
    scoreCroissance sigTwoYears ratiosRaw = 5 ∧
    scoreRentabilite ratiosRaw 2023 = 0 ∧
    (calculerScoreGlobal sigTwoYears ratiosRaw wcNeg).scores_detailles
      = scoresOf sigTwoYears ratiosRaw wcNeg := by
  have h := c8_failure_isolation
  refine ⟨h.1 sigOneYear ratiosRaw (by decide), ?_, ?_, h.2.2.2.2.2.2 sigTwoYears ratiosRaw wcNeg (by decide)⟩
  · exact h.2.2.1 sigTwoYears ratiosRaw [("rentabilite_nette", PyVal.strRaw)]
      (by decide) (by decide) rfl
  · exact h.2.2.2.2.2.1 ratiosRaw 2023 [("rentabilite_nette", PyVal.strRaw)] rfl rfl

/-- C9 counterexample: a single product row, code 701, whose label
contains achat is counted both in revenue and in the merchandise purchase
bucket, so the commercial margin collapses to 0 instead of the 100000 the
claim would imply. -/
theorem c9_product_label_counterexample :
    determineNature "701" "CPC" = "produit" ∧
    lowerContains "Achat-revente de marchandises" "achat" = true ∧
    (achatsBucket dfAchatProduit 2023).length = 1 ∧
    (sigForYear dfAchatProduit 2023).chiffre_affaires = 100000 ∧
    sumAmounts (achatsBucket dfAchatProduit 2023) = 100000 ∧
    (sigForYear dfAchatProduit 2023).marge_commerciale = 0 ∧
    (0 : ℚ) ≠ 100000 :=
  ⟨by decide, by decide, by decide,
   le_antisymm (by with_unfolding_all decide) (by with_unfolding_all decide),
   le_antisymm (by with_unfolding_all decide) (by with_unfolding_all decide),
   le_antisymm (by with_unfolding_all decide) (by with_unfolding_all decide),
   by norm_num⟩

/-- C9 amended: the merchandise purchase bucket is the set of all income
statement rows whose code is 601 or whose label contains achat, with no
exclusion of product-prefixed rows, and the commercial margin subtracts
the absolute sum of that bucket from revenue; a product row with such a
label is therefore counted on both sides. -/
theorem c9_achat_bucket_membership (df : List Entry) (y : Int) :
    (sigForYear df y).marge_commerciale = ventesOf df y - |sumAmounts (achatsBucket df y)| ∧
    (∀ e : Entry, e ∈ achatsBucket df y ↔
      e ∈ cpcData df y ∧ (e.account_code = "601" ∨ lowerContains e.account_label "achat" = true)) :=
  ⟨rfl, by
    intro e
    simp [achatsBucket, List.mem_filter, Bool.or_eq_true, beq_iff_eq]⟩

/-- C10: the classifier is total and never yields the bucket autre on an
income statement or balance sheet row: income statement codes are produit
exactly when the code starts with 7 and charge otherwise, balance sheet
codes are actif exactly when the code starts with 2, 3, 4 or 5 and passif
otherwise, and a result of autre forces a source other than CPC or BILAN. -/
theorem c10_nature_total_no_autre (code source : String) :
    determineNature code "CPC" = (if strStarts code "7" = true then "produit" else "charge") ∧
    determineNature code "BILAN" =
      (if (strStarts code "2" || strStarts code "3" || strStarts code "4"
          || strStarts code "5") = true then "actif" else "passif") ∧
    (determineNature code source = "autre" → source ≠ "CPC" ∧ source ≠ "BILAN") := by
  refine ⟨?_, ?_, ?_⟩
  · unfold determineNature
    rw [starts_any7, if_pos (rfl : "CPC" = "CPC")]
  · unfold determineNature
    rw [if_neg (by decide : ¬("BILAN" = "CPC")), if_pos (rfl : "BILAN" = "BILAN")]
  · intro h
    constructor
    · intro hs
      rw [hs] at h
      unfold determineNature at h
      rw [if_pos (rfl : "CPC" = "CPC")] at h
      split_ifs at h <;> exact absurd h (by decide)
    · intro hs
      rw [hs] at h
      unfold determineNature at h
      rw [if_neg (by decide : ¬("BILAN" = "CPC")), if_pos (rfl : "BILAN" = "BILAN")] at h
      split_ifs at h <;> exact absurd h (by decide)

/-- C10 witness: a cash flow row that classifies as autre comes from
neither the income statement nor the balance sheet. -/
theorem c10_nature_total_no_autre_witness :
    ("FLUX_TRESORERIE" : String) ≠ "CPC" ∧ ("FLUX_TRESORERIE" : String) ≠ "BILAN" :=
  (c10_nature_total_no_autre "99" "FLUX_TRESORERIE").2.2 (by decide)

end CreditRiskCemac
